import Mathlib

/-!
Shallow embedding of the football-analytics core: the correlation analyzer
from analytics_service.py and the event-proximity / matchup-projection /
defense-ranking logic from app/main.py, together with theorems checking the
specification's claims about them.

Dates are embedded as a pair of an absolute day index (so that date
subtraction in days and date comparison are exact) and a calendar year (the
only other projection of a date the code uses).  Exact rational arithmetic
stands in for Python float arithmetic; machine reals appear only where the
code computes genuinely irrational values (Pearson correlation, t-test
p-value).
-/

namespace FA

/-- Calendar date: absolute day index plus the calendar year, the two
projections of a Python date the embedded code uses. -/
structure DateM where
  days : Int
  year : Int
deriving DecidableEq

/-! ## Correlation analyzer (analytics_service.py, calculate_correlation) -/

/-- PlayerStats row as used by the analytics service: game date and the
fantasy-points value the analyzer averages. -/
structure StatRow where
  game_date : Int
  fantasy_points : ℚ
deriving DecidableEq

/-- LifeEvent row as used by the analytics service (already filtered to one
player and one event type by the query): just the event date. -/
structure EventRow where
  event_date : Int
deriving DecidableEq

/-- Mean of a list of rationals, as sum divided by length (division by zero
yields zero, matching guarded callers). -/
def listAvg (l : List ℚ) : ℚ := l.sum / (l.length : ℚ)

/-- Stats in the window before an event: game_date in
[event_date - days_before, event_date). -/
def beforeStatsFor (stats : List StatRow) (eventDate daysBefore : Int) : List StatRow :=
  stats.filter (fun s => decide (eventDate - daysBefore ≤ s.game_date ∧ s.game_date < eventDate))

/-- Stats in the window after an event: game_date in
(event_date, event_date + days_after]. -/
def afterStatsFor (stats : List StatRow) (eventDate daysAfter : Int) : List StatRow :=
  stats.filter (fun s => decide (eventDate < s.game_date ∧ s.game_date ≤ eventDate + daysAfter))

/-- One before-window mean fantasy-points value per event whose before
window is non-empty. -/
def beforeScores (events : List EventRow) (stats : List StatRow) (daysBefore : Int) : List ℚ :=
  events.filterMap (fun e =>
    let bs := beforeStatsFor stats e.event_date daysBefore
    if bs.isEmpty then none else some (listAvg (bs.map (fun s => s.fantasy_points))))

/-- One after-window mean fantasy-points value per event whose after window
is non-empty. -/
def afterScores (events : List EventRow) (stats : List StatRow) (daysAfter : Int) : List ℚ :=
  events.filterMap (fun e =>
    let as' := afterStatsFor stats e.event_date daysAfter
    if as'.isEmpty then none else some (listAvg (as'.map (fun s => s.fantasy_points))))

/-- Deviations of a list from its own mean. -/
def centered (xs : List ℚ) : List ℚ := xs.map (fun x => x - listAvg xs)

/-- Pointwise dot product of two lists (trailing elements of the longer list
are ignored, as in a zip). -/
def dotL (xs ys : List ℚ) : ℚ := (List.zipWith (fun a b => a * b) xs ys).sum

/-- Pearson product-moment correlation coefficient, the quantity
np.corrcoef returns at the off-diagonal entry: centered dot product divided
by the product of the standard deviations (the 1/(n-1) factors cancel).
When either list has zero variance the float denominator is 0; the
numerator is then forced to 0 as well (a zero sum of squares over exact
rationals makes every centered entry 0), so the quotient is the IEEE 0/0,
a NaN, embedded as none. -/
noncomputable def pearson (xs ys : List ℚ) : Option ℝ :=
  if dotL (centered xs) (centered xs) = 0 ∨ dotL (centered ys) (centered ys) = 0 then none
  else
    some (((dotL (centered xs) (centered ys) : ℚ) : ℝ) /
      (Real.sqrt ((dotL (centered xs) (centered xs) : ℚ) : ℝ) *
        Real.sqrt ((dotL (centered ys) (centered ys) : ℚ) : ℝ)))

/-- Density of Student's t distribution with df degrees of freedom. -/
noncomputable def studentTPdf (df : ℝ) (x : ℝ) : ℝ :=
  Real.Gamma ((df + 1) / 2) / (Real.sqrt (df * Real.pi) * Real.Gamma (df / 2)) *
    (1 + x ^ 2 / df) ^ (-((df + 1) / 2))

/-- Two-tailed p-value of the pooled two-sample t-test
(scipy.stats.ttest_ind with its default equal-variance assumption). -/
noncomputable def tTestPValue (xs ys : List ℚ) : ℝ :=
  let n1 : ℝ := (xs.length : ℝ)
  let n2 : ℝ := (ys.length : ℝ)
  let df := n1 + n2 - 2
  let pooledVar := ((dotL (centered xs) (centered xs) + dotL (centered ys) (centered ys) : ℚ) : ℝ) / df
  let tStat := ((listAvg xs - listAvg ys : ℚ) : ℝ) / Real.sqrt (pooledVar * (1 / n1 + 1 / n2))
  2 * MeasureTheory.integral (MeasureTheory.volume.restrict (Set.Ioi |tStat|)) (studentTPdf df)

/-- Result dict of calculate_correlation.  The correlation field holds a
float that can be NaN (np.corrcoef on a zero-variance list), embedded as an
optional real with none for NaN. -/
structure CorrResult where
  player_id : Int
  event_type : String
  correlation_coefficient : Option ℝ
  sample_size : Nat
  p_value : ℝ
  mean_before : ℚ
  mean_after : ℚ
  is_significant : Prop

/-- calculate_correlation from analytics_service.py: collect one
before-mean and one after-mean per qualifying event, require at least three
of each, then run the t-test and (on equal-length lists only) the Pearson
correlation. -/
noncomputable def calculate_correlation (player_id : Int) (event_type : String)
    (events : List EventRow) (stats : List StatRow) (days_before days_after : Int) :
    Option CorrResult :=
  if events.isEmpty then none
  else
    let before_scores := beforeScores events stats days_before
    let after_scores := afterScores events stats days_after
    if before_scores.length < 3 ∨ after_scores.length < 3 then none
    else
      let p_value := tTestPValue before_scores after_scores
      some
        { player_id := player_id
          event_type := event_type
          correlation_coefficient :=
            if before_scores.length = after_scores.length then
              pearson before_scores after_scores
            else some 0
          sample_size := before_scores.length + after_scores.length
          p_value := p_value
          mean_before := listAvg before_scores
          mean_after := listAvg after_scores
          is_significant := p_value < 5 / 100 }

/-- Correlation coefficient carried by an analysis outcome: a numeric value
is some r, a stored NaN is none.  The no-result outcome reads as the
neutral some 0, so that none below stands exactly for a returned result
whose stored coefficient is NaN. -/
noncomputable def corrCoefficientOf (r : Option CorrResult) : Option ℝ :=
  match r with
  | none => some 0
  | some c => c.correlation_coefficient

/-! ## Matchup projection engine (app/main.py, calculate_matchup_prediction) -/

/-- Player as the projection engine sees it: only the position is read. -/
structure PlayerM where
  position : String
deriving DecidableEq

/-- PlayerStats row with the numeric fields the analytics routes read. -/
structure GameStat where
  game_date : DateM
  fantasy_points : ℚ
  receiving_yards : ℚ
  receptions : ℚ
  receiving_tds : ℚ
  targets : ℚ
  rushing_yards : ℚ
  rushing_tds : ℚ
deriving DecidableEq

/-- LifeEvent row: polarity string, category label, date. -/
structure LifeEventM where
  event_type : String
  event_category : String
  event_date : DateM
deriving DecidableEq

/-- UpcomingGame row including the optional prop lines. -/
structure UpcomingGameM where
  game_date : DateM
  opponent : String
  week : Int
  season : Int
  prop_receiving_yards : Option ℚ
  prop_receptions : Option ℚ
  prop_rush_yards : Option ℚ
deriving DecidableEq

/-- TeamDefenseStats row. -/
structure TeamDefenseM where
  team_abbr : String
  season : Int
  week : Int
  pass_yards_allowed_per_game : ℚ
  rush_yards_allowed_per_game : ℚ
  passing_tds_allowed : Int
  rushing_tds_allowed : Int
  sacks : Int
  pass_defense_rank : Int
  rush_defense_rank : Int
deriving DecidableEq

/-- PlayerVsTeamHistory row for one player (the player key is implicit:
rows are already those of the player under analysis). -/
structure VsTeamHistoryM where
  opponent_team : String
  receiving_yards : ℚ
  rushing_yards : ℚ
deriving DecidableEq

/-- Database state the projection engine queries beyond its four arguments:
defense rows, the player's vs-team history rows, and the player's stored
stats rows (re-queried for the cross-season check). -/
structure Db where
  team_defense : List TeamDefenseM
  vs_history : List VsTeamHistoryM
  player_stats : List GameStat
deriving DecidableEq

/-- One human-readable factor string of the prediction, kept structured:
each constructor captures the data interpolated into the message. -/
inductive Factor where
  | eventNote (positive : Bool) (category : String) (daysAgo : Int)
  | toughMatchup (rank : Int) (isPass : Bool)
  | favorableMatchup (rank : Int) (isPass : Bool)
  | strongHistory (opponent : String) (games : Nat)
  | struggles (opponent : String) (games : Nat)
  | crossSeason
deriving DecidableEq

/-- The prediction dict returned by calculate_matchup_prediction. -/
structure Prediction where
  base_projection : ℚ
  event_adjustment : ℚ
  opponent_adjustment : ℚ
  final_projection : ℚ
  confidence : Int
  recommendation : String
  factors : List Factor
deriving DecidableEq

/-- The all-zero initial prediction, returned unchanged when no stats
exist. -/
def emptyPrediction : Prediction :=
  { base_projection := 0
    event_adjustment := 0
    opponent_adjustment := 0
    final_projection := 0
    confidence := 0
    recommendation := "HOLD"
    factors := [] }

/-- The pass-catching position test: position in ['WR', 'TE']. -/
def isPassCatcher (pos : String) : Bool := decide (pos = "WR" ∨ pos = "TE")

/-- Python round(x, 1) (ties idealized to round-half-up). -/
def round1 (x : ℚ) : ℚ := ((round (x * 10) : ℤ) : ℚ) / 10

/-- Python round(x, 0) (ties idealized to round-half-up). -/
def round0 (x : ℚ) : ℚ := ((round x : ℤ) : ℚ)

/-- Step 1: season-average receiving yards for pass catchers, rushing yards
otherwise. -/
def baseProjection (player : PlayerM) (stats : List GameStat) : ℚ :=
  if isPassCatcher player.position then
    (stats.map (fun s => s.receiving_yards)).sum / (stats.length : ℚ)
  else
    (stats.map (fun s => s.rushing_yards)).sum / (stats.length : ℚ)

/-- Days from a life event to the upcoming game. -/
def daysUntilGame (g : UpcomingGameM) (e : LifeEventM) : Int :=
  g.game_date.days - e.event_date.days

/-- Step 2 filter: life events dated 0 to 7 days (inclusive) before the
game. -/
def recentEvents (g : UpcomingGameM) (events : List LifeEventM) : List LifeEventM :=
  events.filter (fun e => decide (0 ≤ daysUntilGame g e ∧ daysUntilGame g e ≤ 7))

/-- Step 2 accumulator over the qualifying events: +0.12 per positive
event, -0.08 per event of any other type. -/
def eventImpactSum (recent : List LifeEventM) : ℚ :=
  recent.foldl (fun acc e => if e.event_type = "positive" then acc + 12 / 100 else acc - 8 / 100) 0

/-- Step 2 adjustment: base projection times the accumulated impact, set
only when some event qualified (zero otherwise, as the dict default). -/
def eventAdjustment (g : UpcomingGameM) (events : List LifeEventM) (base : ℚ) : ℚ :=
  if (recentEvents g events).isEmpty then 0
  else base * eventImpactSum (recentEvents g events)

/-- Factor strings recorded for the qualifying events. -/
def eventFactors (g : UpcomingGameM) (events : List LifeEventM) : List Factor :=
  (recentEvents g events).map (fun e =>
    Factor.eventNote (decide (e.event_type = "positive")) e.event_category (daysUntilGame g e))

/-- Step 3 lookup: first defense row matching (opponent, season, week). -/
def findDefense (db : Db) (g : UpcomingGameM) : Option TeamDefenseM :=
  db.team_defense.find? (fun t =>
    decide (t.team_abbr = g.opponent ∧ t.season = g.season ∧ t.week = g.week))

/-- Rank selected from a defense row by position kind. -/
def defenseRank (isPass : Bool) (d : TeamDefenseM) : Int :=
  if isPass then d.pass_defense_rank else d.rush_defense_rank

/-- Rank-to-multiplier map: 1 + (rank - 16) * 0.02, rank 16 neutral. -/
def rankMultiplier (rank : Int) : ℚ := 1 + ((rank : ℚ) - 16) * (2 / 100)

/-- Step 3 adjustment: base projection times (multiplier - 1). -/
def opponentAdjustment (base : ℚ) (rank : Int) : ℚ := base * (rankMultiplier rank - 1)

/-- Factor strings recorded for the defense matchup: ranks up to 10 are
tough, ranks from 23 up favorable. -/
def defenseFactors (isPass : Bool) (d : TeamDefenseM) : List Factor :=
  if defenseRank isPass d ≤ 10 then [Factor.toughMatchup (defenseRank isPass d) isPass]
  else if 23 ≤ defenseRank isPass d then [Factor.favorableMatchup (defenseRank isPass d) isPass]
  else []

/-- Step 4 lookup: history rows against this opponent. -/
def vsTeamHistory (db : Db) (g : UpcomingGameM) : List VsTeamHistoryM :=
  db.vs_history.filter (fun h => decide (h.opponent_team = g.opponent))

/-- Step 4 informational factor: average yardage vs this opponent above
115% or below 85% of the base projection. -/
def historyFactors (isPass : Bool) (g : UpcomingGameM) (hist : List VsTeamHistoryM)
    (base : ℚ) : List Factor :=
  if hist.isEmpty then []
  else
    let avg := (hist.map (fun h => if isPass then h.receiving_yards else h.rushing_yards)).sum /
      (hist.length : ℚ)
    if base * (115 / 100) < avg then [Factor.strongHistory g.opponent hist.length]
    else if avg < base * (85 / 100) then [Factor.struggles g.opponent hist.length]
    else []

/-- Step 6 confidence: +25 for a qualifying event, +35 for a defense row,
+20 for history, +20 for at least 5 stats. -/
def confidenceFactors (hasRecentEvents hasDefense hasHistory : Bool) (numStats : Nat) : Int :=
  (if hasRecentEvents then 25 else 0) + (if hasDefense then 35 else 0) +
    (if hasHistory then 20 else 0) + (if 5 ≤ numStats then 20 else 0)

/-- Python truthiness of an optional float: present and nonzero. -/
def truthy (o : Option ℚ) : Bool :=
  match o with
  | none => false
  | some x => decide (x ≠ 0)

/-- Step 7 recommendation, including both Python truthiness gates of the
source: the outer receiving-or-rush gate and the inner gate on the
position-relevant prop line. -/
def recommendationCode (g : UpcomingGameM) (isPass : Bool) (finalProjection : ℚ)
    (conf : Int) : String :=
  if truthy g.prop_receiving_yards || truthy g.prop_rush_yards then
    match (if isPass then g.prop_receiving_yards else g.prop_rush_yards) with
    | none => "HOLD"
    | some pl =>
      if pl = 0 then "HOLD"
      else
        if 8 ≤ finalProjection - pl ∧ 60 ≤ conf then "STRONG OVER"
        else if 4 ≤ finalProjection - pl then "LEAN OVER"
        else if finalProjection - pl ≤ -8 ∧ 60 ≤ conf then "STRONG UNDER"
        else if finalProjection - pl ≤ -4 then "LEAN UNDER"
        else "HOLD"
  else "HOLD"

/-- Final block of the source: re-query the stored stats, and if the game
season differs from the year of the first stored stat, scale confidence by
0.85 (integer-truncated) and record a warning factor. -/
def crossSeasonScale (dbStats : List GameStat) (g : UpcomingGameM) (conf : Int) :
    Int × List Factor :=
  match dbStats.head? with
  | none => (conf, [])
  | some s0 =>
    if g.season ≠ s0.game_date.year then ((conf * 85) / 100, [Factor.crossSeason])
    else (conf, [])

/-- calculate_matchup_prediction from app/main.py: base projection, life
event adjustment, opponent defense adjustment, informational history
factor, final projection, confidence, recommendation, cross-season
confidence scaling. -/
def calculate_matchup_prediction (player : PlayerM) (g : UpcomingGameM)
    (life_events : List LifeEventM) (stats : List GameStat) (db : Db) : Prediction :=
  if stats.isEmpty then emptyPrediction
  else
    let isPass := isPassCatcher player.position
    let base := baseProjection player stats
    let evAdj := eventAdjustment g life_events base
    let defense := findDefense db g
    let oppAdj :=
      match defense with
      | some d => opponentAdjustment base (defenseRank isPass d)
      | none => 0
    let defFactors :=
      match defense with
      | some d => defenseFactors isPass d
      | none => []
    let hist := vsTeamHistory db g
    let finalProjection := round1 (base + evAdj + oppAdj)
    let conf0 := confidenceFactors (!(recentEvents g life_events).isEmpty) defense.isSome
      (!hist.isEmpty) stats.length
    let recC := recommendationCode g isPass finalProjection conf0
    let scaled := crossSeasonScale db.player_stats g conf0
    { base_projection := base
      event_adjustment := evAdj
      opponent_adjustment := oppAdj
      final_projection := finalProjection
      confidence := scaled.1
      recommendation := recC
      factors := eventFactors g life_events ++ defFactors ++ historyFactors isPass g hist base ++
        scaled.2 }

/-- Per-event impact as claim C2 words it: +0.12 for a positive event dated
0 to 7 days before the game, -0.08 for any other event type in that range,
0 outside the range. -/
def eventImpactOf (g : UpcomingGameM) (e : LifeEventM) : ℚ :=
  if 0 ≤ daysUntilGame g e ∧ daysUntilGame g e ≤ 7 then
    (if e.event_type = "positive" then 12 / 100 else -(8 / 100))
  else 0

/-! ## Event proximity profiler (app/main.py, player_analytics route) -/

/-- One per-field entry of the changes dict of an event comparison. -/
structure ChangeEntry where
  before : ℚ
  afterVal : ℚ
  change : ℚ
  change_pct : ℚ
deriving DecidableEq

/-- A changes-dict entry is created only when the before value is positive
(the division-by-zero guard of the source); otherwise the key is absent. -/
def mkChange (b a : ℚ) : Option ChangeEntry :=
  if 0 < b then
    some
      { before := round1 b
        afterVal := round1 a
        change := round1 (a - b)
        change_pct := round1 ((a - b) / b * 100) }
  else none

/-- The changes dict of one event comparison: the four per-field keys, each
possibly absent. -/
structure Changes where
  fantasy_points : Option ChangeEntry
  receiving_yards : Option ChangeEntry
  receptions : Option ChangeEntry
  receiving_tds : Option ChangeEntry
deriving DecidableEq

/-- One entry of event_analysis. -/
structure EventEntry where
  event : LifeEventM
  changes : Changes
  improved : Bool
  sample_before : Nat
  sample_after : Nat
deriving DecidableEq

/-- Last n elements of a list. -/
def takeLast (n : Nat) (l : List GameStat) : List GameStat := l.drop (l.length - n)

/-- event_analysis of player_analytics: for each life event with at least 3
stats strictly before and 3 strictly after, compare the 3 nearest on each
side field by field. -/
def eventAnalysis (stats : List GameStat) (events : List LifeEventM) : List EventEntry :=
  events.filterMap (fun ev =>
    let before_stats := stats.filter (fun s => decide (s.game_date.days < ev.event_date.days))
    let after_stats := stats.filter (fun s => decide (ev.event_date.days < s.game_date.days))
    if 3 ≤ before_stats.length ∧ 3 ≤ after_stats.length then
      let recent_before := takeLast 3 before_stats
      let recent_after := after_stats.take 3
      let bfp := listAvg (recent_before.map (fun s => s.fantasy_points))
      let bry := listAvg (recent_before.map (fun s => s.receiving_yards))
      let brc := listAvg (recent_before.map (fun s => s.receptions))
      let btd := listAvg (recent_before.map (fun s => s.receiving_tds))
      let afp := listAvg (recent_after.map (fun s => s.fantasy_points))
      let ary := listAvg (recent_after.map (fun s => s.receiving_yards))
      let arc := listAvg (recent_after.map (fun s => s.receptions))
      let atd := listAvg (recent_after.map (fun s => s.receiving_tds))
      some
        { event := ev
          changes :=
            { fantasy_points := mkChange bfp afp
              receiving_yards := mkChange bry ary
              receptions := mkChange brc arc
              receiving_tds := mkChange btd atd }
          improved := decide (bfp < afp)
          sample_before := recent_before.length
          sample_after := recent_after.length }
    else none)

/-- betting_insights dict; every field is defined when the dict is built
without a fault. -/
structure BettingInsights where
  total_events : Nat
  avg_fp_change : ℚ
  avg_yd_change : ℚ
  improved_pct : ℚ
  positive_events_count : Nat
  negative_events_count : Nat
  positive_avg_change : ℚ
  negative_avg_change : ℚ
deriving DecidableEq

/-- The unguarded generator sum of the source at the positive/negative
split: reading the fantasy_points key of a changes dict that lacks it is a
KeyError, modelled as the error outcome. -/
def fpChangeSum (l : List EventEntry) : Except String ℚ :=
  l.foldl (fun acc e =>
    match acc, e.changes.fantasy_points with
    | Except.error m, _ => Except.error m
    | Except.ok s, some c => Except.ok (s + c.change)
    | Except.ok _, none => Except.error "KeyError: fantasy_points") (Except.ok 0)

/-- Entries whose event_type is the literal positive. -/
def positiveEvents (analysis : List EventEntry) : List EventEntry :=
  analysis.filter (fun e => decide (e.event.event_type = "positive"))

/-- Entries whose event_type is the literal negative. -/
def negativeEvents (analysis : List EventEntry) : List EventEntry :=
  analysis.filter (fun e => decide (e.event.event_type = "negative"))

/-- betting_insights of player_analytics: overall sums use membership-
guarded generators, the positive/negative split averages use the unguarded
access; a KeyError while building any value fails the whole dict. -/
def bettingInsights (analysis : List EventEntry) : Except String (Option BettingInsights) :=
  if analysis.isEmpty then Except.ok none
  else
    let total_fp_change :=
      ((analysis.filterMap (fun e => e.changes.fantasy_points)).map (fun c => c.change)).sum
    let total_yd_change :=
      ((analysis.filterMap (fun e => e.changes.receiving_yards)).map (fun c => c.change)).sum
    let pos := positiveEvents analysis
    let neg := negativeEvents analysis
    let posAvg : Except String ℚ :=
      if pos.isEmpty then Except.ok 0
      else Except.map (fun s => round1 (s / (pos.length : ℚ))) (fpChangeSum pos)
    let negAvg : Except String ℚ :=
      if neg.isEmpty then Except.ok 0
      else Except.map (fun s => round1 (s / (neg.length : ℚ))) (fpChangeSum neg)
    match posAvg, negAvg with
    | Except.error m, _ => Except.error m
    | Except.ok _, Except.error m => Except.error m
    | Except.ok pa, Except.ok na =>
      Except.ok (some
        { total_events := analysis.length
          avg_fp_change := round1 (total_fp_change / (analysis.length : ℚ))
          avg_yd_change := round1 (total_yd_change / (analysis.length : ℚ))
          improved_pct :=
            round0 (((analysis.filter (fun e => e.improved)).length : ℚ) /
              (analysis.length : ℚ) * 100)
          positive_events_count := pos.length
          negative_events_count := neg.length
          positive_avg_change := pa
          negative_avg_change := na })

/-! ## Defense ranks (app/main.py, add_team_defense and view_team_defense) -/

/-- add_team_defense stores the submitted row as given (ranks come from the
form, defaulting to 16; nothing is recomputed). -/
def add_team_defense (db : List TeamDefenseM) (row : TeamDefenseM) : List TeamDefenseM :=
  db ++ [row]

/-- Stored pass-defense ranks of a season. -/
def seasonPassRanks (db : List TeamDefenseM) (season : Int) : List Int :=
  (db.filter (fun r => decide (r.season = season))).map (fun r => r.pass_defense_rank)

/-- Stored rush-defense ranks of a season. -/
def seasonRushRanks (db : List TeamDefenseM) (season : Int) : List Int :=
  (db.filter (fun r => decide (r.season = season))).map (fun r => r.rush_defense_rank)

/-- The rank list 1..n. -/
def rankListOf (n : Nat) : List Int := (List.range' 1 n).map (fun i => (i : Int))

/-- A rank list forms a permutation of 1..N for N its own length. -/
def isPermOfRanks (l : List Int) : Prop := l.Perm (rankListOf l.length)

/-- One cumulative per-(team, season) display entry of view_team_defense. -/
structure CumStat where
  team_abbr : String
  season : Int
  games_played : Nat
  pass_yards_allowed_per_game : ℚ
  rush_yards_allowed_per_game : ℚ
  sacks : Int
  passing_tds_allowed : Int
  rushing_tds_allowed : Int
  latest_week : Int
deriving DecidableEq

/-- The (team, season) keys in first-appearance order, as the defaultdict
of the view accumulates them. -/
def teamSeasonKeys (db : List TeamDefenseM) : List (String × Int) :=
  (db.map (fun r => (r.team_abbr, r.season))).eraseDups

/-- Cumulative per-(team, season) averages of view_team_defense. -/
def cumulativeStats (db : List TeamDefenseM) : List CumStat :=
  (teamSeasonKeys db).map (fun k =>
    let rows := db.filter (fun r => decide (r.team_abbr = k.1 ∧ r.season = k.2))
    { team_abbr := k.1
      season := k.2
      games_played := rows.length
      pass_yards_allowed_per_game :=
        round1 ((rows.map (fun r => r.pass_yards_allowed_per_game)).sum / (rows.length : ℚ))
      rush_yards_allowed_per_game :=
        round1 ((rows.map (fun r => r.rush_yards_allowed_per_game)).sum / (rows.length : ℚ))
      sacks := (rows.map (fun r => r.sacks)).sum
      passing_tds_allowed := (rows.map (fun r => r.passing_tds_allowed)).sum
      rushing_tds_allowed := (rows.map (fun r => r.rushing_tds_allowed)).sum
      latest_week := (rows.map (fun r => r.week)).foldl max 0 })

/-- The cumulative entries of one season. -/
def seasonCumStats (db : List TeamDefenseM) (season : Int) : List CumStat :=
  (cumulativeStats db).filter (fun c => decide (c.season = season))

/-- Pass-defense ranking of the view: sort a season's cumulative entries by
pass yards allowed and pair each with its 1-based position. -/
def assignPassRanks (seasonStats : List CumStat) : List (CumStat × Nat) :=
  let sorted := seasonStats.mergeSort
    (fun a b => decide (a.pass_yards_allowed_per_game ≤ b.pass_yards_allowed_per_game))
  sorted.zip (List.range' 1 sorted.length)

/-- Rush-defense ranking of the view, by rush yards allowed. -/
def assignRushRanks (seasonStats : List CumStat) : List (CumStat × Nat) :=
  let sorted := seasonStats.mergeSort
    (fun a b => decide (a.rush_yards_allowed_per_game ≤ b.rush_yards_allowed_per_game))
  sorted.zip (List.range' 1 sorted.length)

/-! ## Claim-side recommendation wording (for claim C7) -/

/-- Claim C7 as stated: a prop line counts as present exactly when it is
supplied; thresholds on final projection minus prop line and on
confidence. -/
def recommendationClaimC7 (finalProjection : ℚ) (conf : Int) (propLine : Option ℚ) : String :=
  match propLine with
  | none => "HOLD"
  | some pl =>
    if 8 ≤ finalProjection - pl ∧ 60 ≤ conf then "STRONG OVER"
    else if 4 ≤ finalProjection - pl then "LEAN OVER"
    else if finalProjection - pl ≤ -8 ∧ 60 ≤ conf then "STRONG UNDER"
    else if finalProjection - pl ≤ -4 then "LEAN UNDER"
    else "HOLD"

/-- Claim C7 amended: a prop line counts as present only when supplied and
nonzero (Python float truthiness), and the confidence consulted is the one
computed before any cross-season scaling. -/
def recommendationAmendedC7 (finalProjection : ℚ) (conf : Int) (propLine : Option ℚ) : String :=
  match propLine with
  | none => "HOLD"
  | some pl =>
    if pl = 0 then "HOLD"
    else
      if 8 ≤ finalProjection - pl ∧ 60 ≤ conf then "STRONG OVER"
      else if 4 ≤ finalProjection - pl then "LEAN OVER"
      else if finalProjection - pl ≤ -8 ∧ 60 ≤ conf then "STRONG UNDER"
      else if finalProjection - pl ≤ -4 then "LEAN UNDER"
      else "HOLD"

/-- The prop line relevant to the player's position: receiving yards for
pass catchers, rushing yards otherwise. -/
def relevantPropLine (player : PlayerM) (g : UpcomingGameM) : Option ℚ :=
  if isPassCatcher player.position then g.prop_receiving_yards else g.prop_rush_yards

/-! ## Lemmas about the dot product (Cauchy-Schwarz) -/

theorem dotL_nil_left (ys : List ℚ) : dotL [] ys = 0 := rfl

theorem dotL_nil_right (xs : List ℚ) : dotL xs [] = 0 := by cases xs <;> rfl

theorem dotL_cons (x y : ℚ) (xs ys : List ℚ) :
    dotL (x :: xs) (y :: ys) = x * y + dotL xs ys := rfl

theorem dotL_self_nonneg (xs : List ℚ) : 0 ≤ dotL xs xs := by
  induction xs with
  | nil => simp [dotL]
  | cons x xs ih =>
    rw [dotL_cons]
    nlinarith [mul_self_nonneg x]

theorem dotL_cross (a b : ℚ) : ∀ xs ys : List ℚ,
    2 * a * b * dotL xs ys ≤ a ^ 2 * dotL ys ys + b ^ 2 * dotL xs xs := by
  intro xs
  induction xs with
  | nil =>
    intro ys
    rw [dotL_nil_left]
    nlinarith [dotL_self_nonneg ys, sq_nonneg a, sq_nonneg b, dotL_self_nonneg ([] : List ℚ)]
  | cons x xs ih =>
    intro ys
    cases ys with
    | nil =>
      rw [dotL_nil_right, dotL_nil_right]
      nlinarith [dotL_self_nonneg (x :: xs), sq_nonneg a, sq_nonneg b]
    | cons y ys =>
      rw [dotL_cons, dotL_cons, dotL_cons]
      have h1 := ih ys
      nlinarith [sq_nonneg (a * y - b * x)]

theorem dotL_sq_le : ∀ xs ys : List ℚ, dotL xs ys ^ 2 ≤ dotL xs xs * dotL ys ys := by
  intro xs
  induction xs with
  | nil =>
    intro ys
    rw [dotL_nil_left ys, dotL_nil_left ([] : List ℚ)]
    norm_num
  | cons x xs ih =>
    intro ys
    cases ys with
    | nil =>
      rw [dotL_nil_right (x :: xs), dotL_nil_right ([] : List ℚ)]
      norm_num
    | cons y ys =>
      rw [dotL_cons, dotL_cons, dotL_cons]
      have h1 := ih ys
      have h2 := dotL_cross x y xs ys
      nlinarith [dotL_self_nonneg xs, dotL_self_nonneg ys]

theorem abs_div_sqrt_le_one (s p q : ℝ) (hp : 0 ≤ p) (_hq : 0 ≤ q) (hsq : s ^ 2 ≤ p * q) :
    |s / (Real.sqrt p * Real.sqrt q)| ≤ 1 := by
  have hd : Real.sqrt p * Real.sqrt q = Real.sqrt (p * q) := (Real.sqrt_mul hp q).symm
  rcases eq_or_lt_of_le (Real.sqrt_nonneg (p * q)) with h0 | hpos
  · rw [hd, ← h0, div_zero, abs_zero]
    norm_num
  · rw [abs_div, hd, abs_of_pos hpos, div_le_one hpos]
    calc |s| = Real.sqrt (s ^ 2) := (Real.sqrt_sq_eq_abs s).symm
    _ ≤ Real.sqrt (p * q) := Real.sqrt_le_sqrt hsq

theorem pearson_some_bounds (xs ys : List ℚ) (r : ℝ) (h : pearson xs ys = some r) :
    -1 ≤ r ∧ r ≤ 1 := by
  have hp : (0 : ℝ) ≤ ((dotL (centered xs) (centered xs) : ℚ) : ℝ) := by
    exact_mod_cast dotL_self_nonneg (centered xs)
  have hq : (0 : ℝ) ≤ ((dotL (centered ys) (centered ys) : ℚ) : ℝ) := by
    exact_mod_cast dotL_self_nonneg (centered ys)
  have hsq : ((dotL (centered xs) (centered ys) : ℚ) : ℝ) ^ 2 ≤
      ((dotL (centered xs) (centered xs) : ℚ) : ℝ) *
        ((dotL (centered ys) (centered ys) : ℚ) : ℝ) := by
    exact_mod_cast dotL_sq_le (centered xs) (centered ys)
  unfold pearson at h
  by_cases hz : dotL (centered xs) (centered xs) = 0 ∨ dotL (centered ys) (centered ys) = 0
  · rw [if_pos hz] at h
    exact absurd h (by simp)
  · rw [if_neg hz] at h
    injection h with h'
    subst h'
    exact abs_le.mp (abs_div_sqrt_le_one _ _ _ hp hq hsq)

theorem pearson_none_iff (xs ys : List ℚ) :
    pearson xs ys = none ↔
      (dotL (centered xs) (centered xs) = 0 ∨ dotL (centered ys) (centered ys) = 0) := by
  unfold pearson
  by_cases hz : dotL (centered xs) (centered xs) = 0 ∨ dotL (centered ys) (centered ys) = 0
  · rw [if_pos hz]
    simp [hz]
  · rw [if_neg hz]
    simp [hz]

/-! ## Claim theorems C3 and C4 -/

/-- Claim C3: the correlation analysis returns the no-result outcome
whenever fewer than 3 before-window mean values or fewer than 3
after-window mean values were collected; in particular it never returns a
significance test when the combined sample size is below 6. -/
theorem c3_insufficient_data (pid : Int) (et : String) (events : List EventRow)
    (stats : List StatRow) (db da : Int) :
    ((beforeScores events stats db).length < 3 ∨ (afterScores events stats da).length < 3 →
      calculate_correlation pid et events stats db da = none) ∧
    ((beforeScores events stats db).length + (afterScores events stats da).length < 6 →
      calculate_correlation pid et events stats db da = none) := by
  have key : (beforeScores events stats db).length < 3 ∨
      (afterScores events stats da).length < 3 →
      calculate_correlation pid et events stats db da = none := by
    intro h
    by_cases he : events.isEmpty
    · simp [calculate_correlation, he]
    · simp [calculate_correlation, he, h]
  exact ⟨key, fun h => key (by omega)⟩

/-- Witness for C3: a single event with no stats collects no scores, so the
analysis returns none. -/
theorem c3_insufficient_data_witness :
    calculate_correlation 1 "injury" [⟨5⟩] [] 30 30 = none :=
  (c3_insufficient_data 1 "injury" [⟨5⟩] [] 30 30).1 (Or.inl (by decide))

/-- Counterexample events for C4: three events, so the score lists pair up
with equal lengths. -/
def eventsC4N : List EventRow := [⟨100⟩, ⟨200⟩, ⟨300⟩]

/-- Counterexample stats for C4: every before-window game scores exactly 7
fantasy points, so the before-value list is the constant [7, 7, 7] with
zero variance, while the after-values are 1, 2, 3. -/
def statsC4N : List StatRow :=
  [⟨95, 7⟩, ⟨105, 1⟩, ⟨195, 7⟩, ⟨205, 2⟩, ⟨295, 7⟩, ⟨305, 3⟩]

/-- Counterexample to C4: at a reachable input the analysis returns a
result, the before- and after-value lists have equal length 3, and yet the
stored correlation coefficient is the NaN that np.corrcoef produces for a
zero-variance list (none in the embedding) - not a real number in the
closed interval from -1 to 1. -/
theorem c4_counterexample :
    calculate_correlation 1 "injury" eventsC4N statsC4N 30 30 ≠ none ∧
    (beforeScores eventsC4N statsC4N 30).length = (afterScores eventsC4N statsC4N 30).length ∧
    corrCoefficientOf (calculate_correlation 1 "injury" eventsC4N statsC4N 30 30) = none := by
  have hb : beforeScores eventsC4N statsC4N 30 = [7, 7, 7] := by
    norm_num [beforeScores, beforeStatsFor, eventsC4N, statsC4N, listAvg, List.filterMap_cons,
      List.filterMap_nil, List.filter_cons, List.filter_nil, List.map_cons, List.map_nil,
      List.sum_cons, List.sum_nil, List.length_cons, List.length_nil]
  have ha : afterScores eventsC4N statsC4N 30 = [1, 2, 3] := by
    norm_num [afterScores, afterStatsFor, eventsC4N, statsC4N, listAvg, List.filterMap_cons,
      List.filterMap_nil, List.filter_cons, List.filter_nil, List.map_cons, List.map_nil,
      List.sum_cons, List.sum_nil, List.length_cons, List.length_nil]
  have hnan : pearson [7, 7, 7] [1, 2, 3] = none := by
    rw [pearson_none_iff]
    left
    norm_num [centered, listAvg, dotL, List.map_cons, List.map_nil, List.sum_cons, List.sum_nil,
      List.length_cons, List.length_nil, List.zipWith_cons_cons, List.zipWith_nil_right]
  have hemp : eventsC4N.isEmpty = false := by decide
  refine ⟨?_, ?_, ?_⟩
  · simp [calculate_correlation, hemp, hb, ha]
  · simp [hb, ha]
  · simp [calculate_correlation, corrCoefficientOf, hemp, hb, ha, hnan]

/-- Claim C4 amended: whenever the correlation analysis returns a result,
its correlation coefficient is exactly 0 if the before-value list and
after-value list have different lengths; when the lengths are equal the
stored coefficient is the NaN of np.corrcoef (none) precisely when the
before-list or the after-list has zero variance, and every numeric
coefficient it ever stores lies in the closed interval from -1 to 1 (the
no-result outcome reads as the neutral some 0). -/
theorem c4_correlation_range (pid : Int) (et : String) (events : List EventRow)
    (stats : List StatRow) (db da : Int) :
    ((beforeScores events stats db).length ≠ (afterScores events stats da).length →
      corrCoefficientOf (calculate_correlation pid et events stats db da) = some 0) ∧
    (∀ r : ℝ, corrCoefficientOf (calculate_correlation pid et events stats db da) = some r →
      -1 ≤ r ∧ r ≤ 1) ∧
    (corrCoefficientOf (calculate_correlation pid et events stats db da) = none ↔
      (calculate_correlation pid et events stats db da ≠ none ∧
        (beforeScores events stats db).length = (afterScores events stats da).length ∧
        (dotL (centered (beforeScores events stats db))
            (centered (beforeScores events stats db)) = 0 ∨
          dotL (centered (afterScores events stats da))
            (centered (afterScores events stats da)) = 0))) := by
  by_cases he : events.isEmpty
  · have hres : calculate_correlation pid et events stats db da = none := by
      simp [calculate_correlation, he]
    have hval : corrCoefficientOf (calculate_correlation pid et events stats db da) = some 0 := by
      rw [hres]
      rfl
    refine ⟨fun _ => hval, fun r hr => ?_, ?_⟩
    · rw [hval] at hr
      injection hr with hr'
      subst hr'
      norm_num
    · rw [hval]
      constructor
      · intro hcon
        exact absurd hcon (by simp)
      · rintro ⟨hne, -, -⟩
        exact absurd hres hne
  · by_cases hlen : (beforeScores events stats db).length < 3 ∨
        (afterScores events stats da).length < 3
    · have hres : calculate_correlation pid et events stats db da = none := by
        simp [calculate_correlation, he, hlen]
      have hval : corrCoefficientOf (calculate_correlation pid et events stats db da) =
          some 0 := by
        rw [hres]
        rfl
      refine ⟨fun _ => hval, fun r hr => ?_, ?_⟩
      · rw [hval] at hr
        injection hr with hr'
        subst hr'
        norm_num
      · rw [hval]
        constructor
        · intro hcon
          exact absurd hcon (by simp)
        · rintro ⟨hne, -, -⟩
          exact absurd hres hne
    · obtain ⟨hb, ha⟩ := not_or.mp hlen
      have hsome : calculate_correlation pid et events stats db da ≠ none := by
        simp [calculate_correlation, he, hb, ha]
      by_cases heq : (beforeScores events stats db).length = (afterScores events stats da).length
      · have hval : corrCoefficientOf (calculate_correlation pid et events stats db da) =
            pearson (beforeScores events stats db) (afterScores events stats da) := by
          simp [calculate_correlation, corrCoefficientOf, he, hb, ha, heq]
        refine ⟨fun hne => absurd heq hne, fun r hr => ?_, ?_⟩
        · rw [hval] at hr
          exact pearson_some_bounds _ _ r hr
        · rw [hval, pearson_none_iff]
          constructor
          · intro hz
            exact ⟨hsome, heq, hz⟩
          · rintro ⟨-, -, hz⟩
            exact hz
      · have hval : corrCoefficientOf (calculate_correlation pid et events stats db da) =
            some 0 := by
          simp [calculate_correlation, corrCoefficientOf, he, hb, ha, heq]
        refine ⟨fun _ => hval, fun r hr => ?_, ?_⟩
        · rw [hval] at hr
          injection hr with hr'
          subst hr'
          norm_num
        · rw [hval]
          constructor
          · intro hcon
            exact absurd hcon (by simp)
          · rintro ⟨-, heq2, -⟩
            exact absurd heq2 heq

/-- Events used by the C4 witness. -/
def eventsC4 : List EventRow := [⟨100⟩, ⟨200⟩, ⟨300⟩, ⟨400⟩]

/-- Stats used by the C4 witness: every event has a before-window game, the
last event has no after-window game, so 4 before-values meet 3
after-values. -/
def statsC4 : List StatRow :=
  [⟨95, 1⟩, ⟨105, 1⟩, ⟨195, 1⟩, ⟨205, 1⟩, ⟨295, 1⟩, ⟨305, 1⟩, ⟨395, 1⟩]

/-- Witness for C4: with 4 before-values and 3 after-values the emitted
coefficient is the numeric neutral 0. -/
theorem c4_correlation_range_witness :
    corrCoefficientOf (calculate_correlation 1 "injury" eventsC4 statsC4 30 30) = some 0 :=
  (c4_correlation_range 1 "injury" eventsC4 statsC4 30 30).1 (by decide)

/-! ## Claim theorem C2: the event adjustment formula -/

theorem eventImpactSum_foldl (l : List LifeEventM) (a : ℚ) :
    l.foldl (fun acc e => if e.event_type = "positive" then acc + 12 / 100 else acc - 8 / 100) a =
      a + (l.map (fun e =>
        if e.event_type = "positive" then (12 : ℚ) / 100 else -(8 / 100))).sum := by
  induction l generalizing a with
  | nil => simp
  | cons e l ih =>
    simp only [List.foldl_cons, List.map_cons, List.sum_cons, ih]
    split <;> ring

theorem recent_impact_eq_total (g : UpcomingGameM) (l : List LifeEventM) :
    ((recentEvents g l).map (fun e =>
      if e.event_type = "positive" then (12 : ℚ) / 100 else -(8 / 100))).sum =
      (l.map (eventImpactOf g)).sum := by
  induction l with
  | nil => rfl
  | cons e l ih =>
    by_cases h : 0 ≤ daysUntilGame g e ∧ daysUntilGame g e ≤ 7
    · simp only [recentEvents, List.filter_cons, List.map_cons, List.sum_cons, eventImpactOf]
      rw [if_pos (by simpa using h), if_pos h, ← ih]
      rfl
    · simp only [recentEvents, List.filter_cons, List.map_cons, List.sum_cons, eventImpactOf]
      rw [if_neg (by simpa using h), if_neg h, ← ih]
      simp [recentEvents]

/-- Claim C2: in the matchup projection, every life event dated 0 to 7 days
(inclusive) before the matchup contributes +0.12 to the impact sum when its
event_type is the literal positive and -0.08 for any other value, events
outside the window contribute nothing, and the event adjustment equals the
base projection times the summed impact. -/
theorem c2_event_adjustment (p : PlayerM) (g : UpcomingGameM) (evs : List LifeEventM)
    (stats : List GameStat) (db : Db) :
    (calculate_matchup_prediction p g evs stats db).event_adjustment =
      baseProjection p stats * (evs.map (eventImpactOf g)).sum := by
  have hadj : eventAdjustment g evs (baseProjection p stats) =
      baseProjection p stats * (evs.map (eventImpactOf g)).sum := by
    by_cases hre : (recentEvents g evs).isEmpty
    · have hnil : recentEvents g evs = [] := by
        cases hv : recentEvents g evs
        · rfl
        · rw [hv] at hre
          simp [List.isEmpty] at hre
      rw [eventAdjustment, if_pos hre, ← recent_impact_eq_total, hnil]
      simp
    · rw [eventAdjustment, if_neg hre, eventImpactSum, eventImpactSum_foldl,
        ← recent_impact_eq_total]
      ring
  by_cases hs : stats.isEmpty
  · have hnil : stats = [] := by
      cases hv : stats
      · rfl
      · rw [hv] at hs
        simp [List.isEmpty] at hs
    subst hnil
    simp [calculate_matchup_prediction, emptyPrediction, baseProjection, isPassCatcher]
  · simp only [calculate_matchup_prediction, hs, Bool.false_eq_true, if_false]
    exact hadj

/-! ## Claim theorem C9: monotone opponent adjustment -/

/-- Claim C9: for a non-negative base projection the opponent adjustment,
base times (rank multiplier minus one), is monotonically non-decreasing in
the defense rank. -/
theorem c9_opponent_adjustment_monotone (base : ℚ) (r1 r2 : Int) (hb : 0 ≤ base)
    (hr : r1 ≤ r2) : opponentAdjustment base r1 ≤ opponentAdjustment base r2 := by
  have hc : (r1 : ℚ) ≤ (r2 : ℚ) := by exact_mod_cast hr
  unfold opponentAdjustment rankMultiplier
  nlinarith

/-- Witness for C9: the adjustment for a base of 60 against rank 5 is at
most the adjustment against rank 10. -/
theorem c9_opponent_adjustment_monotone_witness :
    opponentAdjustment 60 5 ≤ opponentAdjustment 60 10 :=
  c9_opponent_adjustment_monotone 60 5 10 (by decide) (by decide)

/-! ## Claim theorems C8: stored versus displayed defense ranks -/

/-- First defense row of the C8 counterexample, as add_team_defense stores
it with the form-default ranks of 16. -/
def rowC8A : TeamDefenseM :=
  { team_abbr := "AAA", season := 2024, week := 1, pass_yards_allowed_per_game := 200,
    rush_yards_allowed_per_game := 90, passing_tds_allowed := 0, rushing_tds_allowed := 0,
    sacks := 0, pass_defense_rank := 16, rush_defense_rank := 16 }

/-- Second defense row of the C8 counterexample, same season, also with the
default ranks. -/
def rowC8B : TeamDefenseM :=
  { team_abbr := "BBB", season := 2024, week := 2, pass_yards_allowed_per_game := 210,
    rush_yards_allowed_per_game := 95, passing_tds_allowed := 0, rushing_tds_allowed := 0,
    sacks := 0, pass_defense_rank := 16, rush_defense_rank := 16 }

/-- Counterexample to C8: after two add_team_defense submissions with the
form-default rank 16, the stored pass-defense ranks of season 2024 are
16 and 16, not a permutation of 1..2, and were never derived by sorting. -/
theorem c8_counterexample :
    ¬ isPermOfRanks (seasonPassRanks (add_team_defense (add_team_defense [] rowC8A) rowC8B)
      2024) := by
  unfold isPermOfRanks
  decide

/-- Claim C8 amended: the display-layer ranks recomputed per season by
view_team_defense are assigned by sorting the season's cumulative entries
by yards allowed, so the assigned pass ranks and rush ranks are each
exactly 1..N over a permutation of the season's entries. -/
theorem c8_view_ranks_amended (db : List TeamDefenseM) (season : Int) :
    ((assignPassRanks (seasonCumStats db season)).map Prod.snd =
        List.range' 1 (seasonCumStats db season).length ∧
      ((assignPassRanks (seasonCumStats db season)).map Prod.fst).Perm
        (seasonCumStats db season)) ∧
    ((assignRushRanks (seasonCumStats db season)).map Prod.snd =
        List.range' 1 (seasonCumStats db season).length ∧
      ((assignRushRanks (seasonCumStats db season)).map Prod.fst).Perm
        (seasonCumStats db season)) := by
  have gen : ∀ (l : List CumStat) (le : CumStat → CumStat → Bool),
      ((l.mergeSort le).zip (List.range' 1 (l.mergeSort le).length)).map Prod.snd =
          List.range' 1 l.length ∧
        (((l.mergeSort le).zip (List.range' 1 (l.mergeSort le).length)).map Prod.fst).Perm l := by
    intro l le
    have hlen : (List.range' 1 (l.mergeSort le).length).length = (l.mergeSort le).length := by
      simp
    constructor
    · rw [List.map_snd_zip _ _ (le_of_eq hlen), List.length_mergeSort]
    · rw [List.map_fst_zip _ _ (le_of_eq hlen.symm)]
      exact List.mergeSort_perm l le
  exact ⟨gen (seasonCumStats db season) _, gen (seasonCumStats db season) _⟩

/-! ## Claim theorems C6: database dependence of the projection -/

theorem crossSeasonScale_congr (l l' : List GameStat) (g : UpcomingGameM) (c : Int)
    (h : l.head?.map (fun s => s.game_date.year) = l'.head?.map (fun s => s.game_date.year)) :
    crossSeasonScale l g c = crossSeasonScale l' g c := by
  unfold crossSeasonScale
  cases hl : l.head? with
  | none =>
    cases hl' : l'.head? with
    | none => rfl
    | some s => simp [hl, hl'] at h
  | some s =>
    cases hl' : l'.head? with
    | none => simp [hl, hl'] at h
    | some s' =>
      simp only [hl, hl', Option.map_some', Option.some.injEq] at h
      simp [h]

theorem crossSeasonScale_congr_fun (l l' : List GameStat) (g : UpcomingGameM)
    (h : l.head?.map (fun s => s.game_date.year) = l'.head?.map (fun s => s.game_date.year)) :
    crossSeasonScale l g = crossSeasonScale l' g :=
  funext (fun c => crossSeasonScale_congr l l' g c h)

/-- The concrete inputs of the C6 counterexample. -/
def playerC6 : PlayerM := { position := "WR" }

/-- One game stat row for the C6 counterexample. -/
def statC6 : GameStat :=
  { game_date := { days := 1, year := 2024 }, fantasy_points := 0, receiving_yards := 60,
    receptions := 0, receiving_tds := 0, targets := 0, rushing_yards := 0, rushing_tds := 0 }

/-- Upcoming game of the C6 counterexample. -/
def gameC6 : UpcomingGameM :=
  { game_date := { days := 100, year := 2024 }, opponent := "KC", week := 5, season := 2024,
    prop_receiving_yards := none, prop_receptions := none, prop_rush_yards := none }

/-- Defense row matching gameC6, rank 5. -/
def defenseC6 : TeamDefenseM :=
  { team_abbr := "KC", season := 2024, week := 5, pass_yards_allowed_per_game := 250,
    rush_yards_allowed_per_game := 120, passing_tds_allowed := 10, rushing_tds_allowed := 5,
    sacks := 30, pass_defense_rank := 5, rush_defense_rank := 12 }

/-- Database state holding the matching defense row. -/
def dbC6A : Db := { team_defense := [defenseC6], vs_history := [], player_stats := [statC6] }

/-- Database state without any defense row. -/
def dbC6B : Db := { team_defense := [], vs_history := [], player_stats := [statC6] }

/-- Counterexample to C6: the projection is not a function of its four
arguments alone; two invocations with identical arguments but different
database states differ in their opponent adjustment. -/
theorem c6_counterexample :
    calculate_matchup_prediction playerC6 gameC6 [] [statC6] dbC6A ≠
      calculate_matchup_prediction playerC6 gameC6 [] [statC6] dbC6B := by
  intro h
  have h2 := congrArg Prediction.opponent_adjustment h
  norm_num [calculate_matchup_prediction, playerC6, gameC6, statC6, dbC6A, dbC6B, defenseC6,
    baseProjection, isPassCatcher, eventAdjustment, recentEvents, findDefense, defenseRank,
    opponentAdjustment, rankMultiplier, vsTeamHistory, List.find?] at h2

/-- Claim C6 amended: the projection is a deterministic function of its
four arguments together with the database rows it queries; two database
states that agree on the matching defense row, on the history rows against
the opponent, and on the year of the first stored stat yield identical
projections. -/
theorem c6_determinism_frame (p : PlayerM) (g : UpcomingGameM) (evs : List LifeEventM)
    (stats : List GameStat) (db db' : Db)
    (h1 : findDefense db g = findDefense db' g)
    (h2 : vsTeamHistory db g = vsTeamHistory db' g)
    (h3 : db.player_stats.head?.map (fun s => s.game_date.year) =
      db'.player_stats.head?.map (fun s => s.game_date.year)) :
    calculate_matchup_prediction p g evs stats db =
      calculate_matchup_prediction p g evs stats db' := by
  unfold calculate_matchup_prediction
  rw [h1, h2, crossSeasonScale_congr_fun db.player_stats db'.player_stats g h3]

/-- Defense row of the C6 witness that matches no queried game (different
season). -/
def defenseC6W : TeamDefenseM :=
  { team_abbr := "KC", season := 2023, week := 5, pass_yards_allowed_per_game := 250,
    rush_yards_allowed_per_game := 120, passing_tds_allowed := 10, rushing_tds_allowed := 5,
    sacks := 30, pass_defense_rank := 5, rush_defense_rank := 12 }

/-- History row of the C6 witness against an opponent other than the one
queried. -/
def historyC6W : VsTeamHistoryM :=
  { opponent_team := "LV", receiving_yards := 10, rushing_yards := 10 }

/-- Second stored stat row of the C6 witness, different day, same year. -/
def statC6W : GameStat :=
  { game_date := { days := 2, year := 2024 }, fantasy_points := 3, receiving_yards := 20,
    receptions := 1, receiving_tds := 0, targets := 2, rushing_yards := 0, rushing_tds := 0 }

/-- First database state of the C6 witness: irrelevant defense and history
rows present. -/
def dbC6W1 : Db :=
  { team_defense := [defenseC6W]
    vs_history := [historyC6W]
    player_stats := [statC6] }

/-- Second database state of the C6 witness: no defense or history rows,
different stored stat with the same year. -/
def dbC6W2 : Db := { team_defense := [], vs_history := [], player_stats := [statC6W] }

/-- Witness for the amended C6: the two database states agree on every
queried projection, so the predictions coincide. -/
theorem c6_determinism_frame_witness :
    calculate_matchup_prediction playerC6 gameC6 [] [statC6] dbC6W1 =
      calculate_matchup_prediction playerC6 gameC6 [] [statC6] dbC6W2 :=
  c6_determinism_frame playerC6 gameC6 [] [statC6] dbC6W1 dbC6W2 (by decide) (by decide)
    (by decide)

/-! ## Claim theorems C7: the recommendation rule -/

theorem recommendationCode_eq_amended (g : UpcomingGameM) (isPass : Bool) (fp : ℚ) (c : Int) :
    recommendationCode g isPass fp c =
      recommendationAmendedC7 fp c (if isPass then g.prop_receiving_yards
        else g.prop_rush_yards) := by
  obtain ⟨gd, opp, wk, sea, pr, prc, pru⟩ := g
  cases isPass with
  | false =>
    cases pr with
    | none =>
      cases pru with
      | none => simp [recommendationCode, recommendationAmendedC7, truthy]
      | some x =>
        by_cases hx : x = 0 <;>
          simp [recommendationCode, recommendationAmendedC7, truthy, hx]
    | some y =>
      cases pru with
      | none =>
        by_cases hy : y = 0 <;>
          simp [recommendationCode, recommendationAmendedC7, truthy, hy]
      | some x =>
        by_cases hx : x = 0 <;> by_cases hy : y = 0 <;>
          simp [recommendationCode, recommendationAmendedC7, truthy, hx, hy]
  | true =>
    cases pr with
    | none =>
      cases pru with
      | none => simp [recommendationCode, recommendationAmendedC7, truthy]
      | some x =>
        by_cases hx : x = 0 <;>
          simp [recommendationCode, recommendationAmendedC7, truthy, hx]
    | some y =>
      cases pru with
      | none =>
        by_cases hy : y = 0 <;>
          simp [recommendationCode, recommendationAmendedC7, truthy, hy]
      | some x =>
        by_cases hx : x = 0 <;> by_cases hy : y = 0 <;>
          simp [recommendationCode, recommendationAmendedC7, truthy, hx, hy]

/-- Claim C7 amended: whenever the prop line relevant to the position is
present and nonzero, the recommendation follows the threshold table
evaluated at the pre-scaling confidence; otherwise it is HOLD. -/
theorem c7_recommendation_amended (p : PlayerM) (g : UpcomingGameM) (evs : List LifeEventM)
    (stats : List GameStat) (db : Db) (hs : stats ≠ []) :
    (calculate_matchup_prediction p g evs stats db).recommendation =
      recommendationAmendedC7 (calculate_matchup_prediction p g evs stats db).final_projection
        (confidenceFactors (!(recentEvents g evs).isEmpty) (findDefense db g).isSome
          (!(vsTeamHistory db g).isEmpty) stats.length)
        (relevantPropLine p g) := by
  have he : stats.isEmpty = false := by
    cases stats
    · exact absurd rfl hs
    · rfl
  simp only [calculate_matchup_prediction, he, Bool.false_eq_true, if_false]
  rw [recommendationCode_eq_amended]
  rfl

/-- Player of the C7 concrete inputs. -/
def playerC7 : PlayerM := { position := "WR" }

/-- Stats of the C7 concrete inputs: five games of 60 receiving yards. -/
def statsC7 : List GameStat :=
  [{ game_date := { days := 1, year := 2024 }, fantasy_points := 0, receiving_yards := 60,
     receptions := 0, receiving_tds := 0, targets := 0, rushing_yards := 0, rushing_tds := 0 },
   { game_date := { days := 2, year := 2024 }, fantasy_points := 0, receiving_yards := 60,
     receptions := 0, receiving_tds := 0, targets := 0, rushing_yards := 0, rushing_tds := 0 },
   { game_date := { days := 3, year := 2024 }, fantasy_points := 0, receiving_yards := 60,
     receptions := 0, receiving_tds := 0, targets := 0, rushing_yards := 0, rushing_tds := 0 },
   { game_date := { days := 4, year := 2024 }, fantasy_points := 0, receiving_yards := 60,
     receptions := 0, receiving_tds := 0, targets := 0, rushing_yards := 0, rushing_tds := 0 },
   { game_date := { days := 5, year := 2024 }, fantasy_points := 0, receiving_yards := 60,
     receptions := 0, receiving_tds := 0, targets := 0, rushing_yards := 0, rushing_tds := 0 }]

/-- Upcoming game of the C7 counterexample: the relevant prop line is
present but equal to 0. -/
def gameC7 : UpcomingGameM :=
  { game_date := { days := 100, year := 2024 }, opponent := "KC", week := 5, season := 2024,
    prop_receiving_yards := some 0, prop_receptions := none, prop_rush_yards := none }

/-- Database of the C7 concrete inputs. -/
def dbC7 : Db :=
  { team_defense := []
    vs_history := []
    player_stats := statsC7 }

/-- Counterexample to C7: a prop line of 0 is present for the relevant
field, the claimed threshold table demands LEAN OVER, but the code leaves
the recommendation at HOLD because Python treats the value 0.0 as absent. -/
theorem c7_counterexample :
    relevantPropLine playerC7 gameC7 ≠ none ∧
    (calculate_matchup_prediction playerC7 gameC7 [] statsC7 dbC7).recommendation = "HOLD" ∧
    recommendationClaimC7
      (calculate_matchup_prediction playerC7 gameC7 [] statsC7 dbC7).final_projection
      (calculate_matchup_prediction playerC7 gameC7 [] statsC7 dbC7).confidence
      (relevantPropLine playerC7 gameC7) = "LEAN OVER" := by
  refine ⟨?_, ?_, ?_⟩
  · simp [relevantPropLine, playerC7, gameC7, isPassCatcher]
  · simp [calculate_matchup_prediction, playerC7, gameC7, statsC7, dbC7, recommendationCode,
      truthy]
  · norm_num [recommendationClaimC7, relevantPropLine, calculate_matchup_prediction, playerC7,
      gameC7, statsC7, dbC7, isPassCatcher, baseProjection, eventAdjustment, recentEvents,
      findDefense, vsTeamHistory, round1, confidenceFactors, crossSeasonScale,
      eventImpactSum]

/-- Game of the C7 witness: a genuine nonzero prop line. -/
def gameC7W : UpcomingGameM :=
  { game_date := { days := 100, year := 2024 }, opponent := "KC", week := 5, season := 2024,
    prop_receiving_yards := some 50, prop_receptions := none, prop_rush_yards := none }

/-- Witness for the amended C7, at a nonzero prop line and nonempty
stats. -/
theorem c7_recommendation_amended_witness :
    (calculate_matchup_prediction playerC7 gameC7W [] statsC7 dbC7).recommendation =
      recommendationAmendedC7
        (calculate_matchup_prediction playerC7 gameC7W [] statsC7 dbC7).final_projection
        (confidenceFactors (!(recentEvents gameC7W []).isEmpty)
          (findDefense dbC7 gameC7W).isSome (!(vsTeamHistory dbC7 gameC7W).isEmpty)
          statsC7.length)
        (relevantPropLine playerC7 gameC7W) :=
  c7_recommendation_amended playerC7 gameC7W [] statsC7 dbC7 (by decide)

/-! ## Claim theorems C1: the worked projection example -/

/-- Player of the C1 example. -/
def playerC1 : PlayerM := { position := "WR" }

/-- The 10 performance records of the C1 example, each with 60 receiving
yards. -/
def statsC1 : List GameStat :=
  [{ game_date := { days := 1, year := 2024 }, fantasy_points := 0, receiving_yards := 60,
     receptions := 0, receiving_tds := 0, targets := 0, rushing_yards := 0, rushing_tds := 0 },
   { game_date := { days := 2, year := 2024 }, fantasy_points := 0, receiving_yards := 60,
     receptions := 0, receiving_tds := 0, targets := 0, rushing_yards := 0, rushing_tds := 0 },
   { game_date := { days := 3, year := 2024 }, fantasy_points := 0, receiving_yards := 60,
     receptions := 0, receiving_tds := 0, targets := 0, rushing_yards := 0, rushing_tds := 0 },
   { game_date := { days := 4, year := 2024 }, fantasy_points := 0, receiving_yards := 60,
     receptions := 0, receiving_tds := 0, targets := 0, rushing_yards := 0, rushing_tds := 0 },
   { game_date := { days := 5, year := 2024 }, fantasy_points := 0, receiving_yards := 60,
     receptions := 0, receiving_tds := 0, targets := 0, rushing_yards := 0, rushing_tds := 0 },
   { game_date := { days := 6, year := 2024 }, fantasy_points := 0, receiving_yards := 60,
     receptions := 0, receiving_tds := 0, targets := 0, rushing_yards := 0, rushing_tds := 0 },
   { game_date := { days := 7, year := 2024 }, fantasy_points := 0, receiving_yards := 60,
     receptions := 0, receiving_tds := 0, targets := 0, rushing_yards := 0, rushing_tds := 0 },
   { game_date := { days := 8, year := 2024 }, fantasy_points := 0, receiving_yards := 60,
     receptions := 0, receiving_tds := 0, targets := 0, rushing_yards := 0, rushing_tds := 0 },
   { game_date := { days := 9, year := 2024 }, fantasy_points := 0, receiving_yards := 60,
     receptions := 0, receiving_tds := 0, targets := 0, rushing_yards := 0, rushing_tds := 0 },
   { game_date := { days := 10, year := 2024 }, fantasy_points := 0, receiving_yards := 60,
     receptions := 0, receiving_tds := 0, targets := 0, rushing_yards := 0, rushing_tds := 0 }]

/-- The one positive life event of the C1 example, 3 days before the
game. -/
def eventC1 : LifeEventM :=
  { event_type := "positive", event_category := "birth", event_date := { days := 97, year := 2024 } }

/-- The scheduled matchup of the C1 example, no prop lines. -/
def gameC1 : UpcomingGameM :=
  { game_date := { days := 100, year := 2024 }, opponent := "KC", week := 5, season := 2024,
    prop_receiving_yards := none, prop_receptions := none, prop_rush_yards := none }

/-- The opposing defense row of the C1 example, pass-defense rank 5. -/
def defenseC1 : TeamDefenseM :=
  { team_abbr := "KC", season := 2024, week := 5, pass_yards_allowed_per_game := 250,
    rush_yards_allowed_per_game := 120, passing_tds_allowed := 10, rushing_tds_allowed := 5,
    sacks := 30, pass_defense_rank := 5, rush_defense_rank := 12 }

/-- Database of the C1 example: the matching defense row, no history. -/
def dbC1 : Db :=
  { team_defense := [defenseC1]
    vs_history := []
    player_stats := statsC1 }

/-- Counterexample to C1: in the claimed scenario the confidence is not 60,
because the code also grants the +20 bonus for having at least 5
performance records. -/
theorem c1_counterexample :
    (calculate_matchup_prediction playerC1 gameC1 [eventC1] statsC1 dbC1).confidence ≠ 60 := by
  norm_num [calculate_matchup_prediction, playerC1, gameC1, eventC1, statsC1, dbC1, defenseC1,
    baseProjection, isPassCatcher, eventAdjustment, recentEvents, daysUntilGame, findDefense,
    defenseRank, opponentAdjustment, rankMultiplier, vsTeamHistory, round1, confidenceFactors,
    crossSeasonScale, eventImpactSum, recommendationCode, truthy]

/-- Claim C1 amended: the worked example yields base 60, event adjustment
7.2, opponent adjustment -13.2, final projection 54.0 and recommendation
HOLD as claimed, but its confidence is 80: 25 for the event, 35 for the
defense row, and additionally 20 for having at least 5 records. -/
theorem c1_amended :
    calculate_matchup_prediction playerC1 gameC1 [eventC1] statsC1 dbC1 =
      { base_projection := 60
        event_adjustment := 36 / 5
        opponent_adjustment := -(66 / 5)
        final_projection := 54
        confidence := 80
        recommendation := "HOLD"
        factors := [Factor.eventNote true "birth" 3, Factor.toughMatchup 5 true] } := by
  norm_num [calculate_matchup_prediction, playerC1, gameC1, eventC1, statsC1, dbC1, defenseC1,
    baseProjection, isPassCatcher, eventAdjustment, recentEvents, daysUntilGame, findDefense,
    defenseRank, opponentAdjustment, rankMultiplier, vsTeamHistory, round1, confidenceFactors,
    crossSeasonScale, eventImpactSum, recommendationCode, truthy, eventFactors, defenseFactors,
    historyFactors, Prediction.mk.injEq]

/-! ## Claim theorems C5 and C10: proximity profile and betting insights -/

/-- Stats of the C5 failing input: three games before the event with zero
fantasy points, three after with six. -/
def statsC5 : List GameStat :=
  [{ game_date := { days := 10, year := 2024 }, fantasy_points := 0, receiving_yards := 0,
     receptions := 0, receiving_tds := 0, targets := 0, rushing_yards := 0, rushing_tds := 0 },
   { game_date := { days := 20, year := 2024 }, fantasy_points := 0, receiving_yards := 0,
     receptions := 0, receiving_tds := 0, targets := 0, rushing_yards := 0, rushing_tds := 0 },
   { game_date := { days := 30, year := 2024 }, fantasy_points := 0, receiving_yards := 0,
     receptions := 0, receiving_tds := 0, targets := 0, rushing_yards := 0, rushing_tds := 0 },
   { game_date := { days := 110, year := 2024 }, fantasy_points := 6, receiving_yards := 0,
     receptions := 0, receiving_tds := 0, targets := 0, rushing_yards := 0, rushing_tds := 0 },
   { game_date := { days := 120, year := 2024 }, fantasy_points := 6, receiving_yards := 0,
     receptions := 0, receiving_tds := 0, targets := 0, rushing_yards := 0, rushing_tds := 0 },
   { game_date := { days := 130, year := 2024 }, fantasy_points := 6, receiving_yards := 0,
     receptions := 0, receiving_tds := 0, targets := 0, rushing_yards := 0, rushing_tds := 0 }]

/-- The positive life event of the C5 failing input. -/
def eventC5 : LifeEventM :=
  { event_type := "positive", event_category := "birth",
    event_date := { days := 100, year := 2024 } }

set_option maxHeartbeats 1600000 in
/-- Claim C5 refuted by the code: with a positive event whose before-window
fantasy average is zero, the changes dict lacks the fantasy_points key, and
building the betting insights faults with a KeyError at the unguarded
positive-split average, contradicting the claimed arithmetic-guard
safety. -/
theorem c5_positive_average_keyerror :
    bettingInsights (eventAnalysis statsC5 [eventC5]) =
      Except.error "KeyError: fantasy_points" := by
  have h1 : eventAnalysis statsC5 [eventC5] =
      [{ event := eventC5
         changes :=
           { fantasy_points := none
             receiving_yards := none
             receptions := none
             receiving_tds := none }
         improved := true
         sample_before := 3
         sample_after := 3 }] := by
    norm_num [eventAnalysis, statsC5, eventC5, takeLast, listAvg, mkChange, List.filterMap_cons, List.filterMap_nil, List.filter_cons, List.filter_nil, List.drop, List.take, List.length_cons, List.length_nil, List.map_cons, List.map_nil, List.sum_cons, List.sum_nil, List.foldl_cons, List.foldl_nil]
  rw [h1]
  norm_num [bettingInsights, positiveEvents, negativeEvents, fpChangeSum, eventC5, List.filterMap_cons, List.filterMap_nil, List.filter_cons, List.filter_nil, List.drop, List.take, List.length_cons, List.length_nil, List.map_cons, List.map_nil, List.sum_cons, List.sum_nil, List.foldl_cons, List.foldl_nil, Except.map]

/-- Stats of the C10 input: fantasy points 1, 2, 3 before the event and
4, 5, 6 after. -/
def statsC10 : List GameStat :=
  [{ game_date := { days := 10, year := 2024 }, fantasy_points := 1, receiving_yards := 0,
     receptions := 0, receiving_tds := 0, targets := 0, rushing_yards := 0, rushing_tds := 0 },
   { game_date := { days := 20, year := 2024 }, fantasy_points := 2, receiving_yards := 0,
     receptions := 0, receiving_tds := 0, targets := 0, rushing_yards := 0, rushing_tds := 0 },
   { game_date := { days := 30, year := 2024 }, fantasy_points := 3, receiving_yards := 0,
     receptions := 0, receiving_tds := 0, targets := 0, rushing_yards := 0, rushing_tds := 0 },
   { game_date := { days := 110, year := 2024 }, fantasy_points := 4, receiving_yards := 0,
     receptions := 0, receiving_tds := 0, targets := 0, rushing_yards := 0, rushing_tds := 0 },
   { game_date := { days := 120, year := 2024 }, fantasy_points := 5, receiving_yards := 0,
     receptions := 0, receiving_tds := 0, targets := 0, rushing_yards := 0, rushing_tds := 0 },
   { game_date := { days := 130, year := 2024 }, fantasy_points := 6, receiving_yards := 0,
     receptions := 0, receiving_tds := 0, targets := 0, rushing_yards := 0, rushing_tds := 0 }]

/-- A life event of the C10 input whose type is neither positive nor
negative. -/
def eventC10 : LifeEventM :=
  { event_type := "neutral", event_category := "other",
    event_date := { days := 100, year := 2024 } }

set_option maxHeartbeats 1600000 in
/-- Claim C10: the positive and negative buckets count only the literal
positive and negative event types, so their counts can fall short of the
total while the unclassified event still contributes to the overall average
change (here the only event is neutral, both buckets are empty, and the
overall fantasy-points change average is its change of 3). -/
theorem c10_polarity_buckets :
    (∀ analysis : List EventEntry,
      (positiveEvents analysis).length + (negativeEvents analysis).length ≤ analysis.length) ∧
    bettingInsights (eventAnalysis statsC10 [eventC10]) =
      Except.ok (some
        { total_events := 1
          avg_fp_change := 3
          avg_yd_change := 0
          improved_pct := 100
          positive_events_count := 0
          negative_events_count := 0
          positive_avg_change := 0
          negative_avg_change := 0 }) := by
  constructor
  · intro analysis
    induction analysis with
    | nil => simp [positiveEvents, negativeEvents]
    | cons e l ih =>
      have hih : (positiveEvents l).length + (negativeEvents l).length ≤ l.length := ih
      by_cases h : e.event.event_type = "positive"
      · have h2 : ¬ e.event.event_type = "negative" := by
          rw [h]
          intro hcon
          exact absurd hcon (by decide)
        simp only [positiveEvents, negativeEvents, List.filter_cons] at hih ⊢
        rw [if_pos (by simpa using h), if_neg (by simpa using h2)]
        simp only [List.length_cons]
        omega
      · by_cases h3 : e.event.event_type = "negative"
        · simp only [positiveEvents, negativeEvents, List.filter_cons] at hih ⊢
          rw [if_neg (by simpa using h), if_pos (by simpa using h3)]
          simp only [List.length_cons]
          omega
        · simp only [positiveEvents, negativeEvents, List.filter_cons] at hih ⊢
          rw [if_neg (by simpa using h), if_neg (by simpa using h3)]
          simp only [List.length_cons]
          omega
  · have h1 : eventAnalysis statsC10 [eventC10] =
        [{ event := eventC10
           changes :=
             { fantasy_points := some
                 { before := 2, afterVal := 5, change := 3, change_pct := 150 }
               receiving_yards := none
               receptions := none
               receiving_tds := none }
           improved := true
           sample_before := 3
           sample_after := 3 }] := by
      norm_num [eventAnalysis, statsC10, eventC10, takeLast, listAvg, mkChange, round1, List.filterMap_cons, List.filterMap_nil, List.filter_cons, List.filter_nil, List.drop, List.take, List.length_cons, List.length_nil, List.map_cons, List.map_nil, List.sum_cons, List.sum_nil, List.foldl_cons, List.foldl_nil]
    have hs1 : (("neutral" : String) = "positive") = False := by simp
    have hs2 : (("neutral" : String) = "negative") = False := by simp
    rw [h1]
    norm_num [bettingInsights, positiveEvents, negativeEvents, fpChangeSum, eventC10, round1,
      round0, hs1, hs2, BettingInsights.mk.injEq, List.filterMap_cons, List.filterMap_nil, List.filter_cons, List.filter_nil, List.drop, List.take, List.length_cons, List.length_nil, List.map_cons, List.map_nil, List.sum_cons, List.sum_nil, List.foldl_cons, List.foldl_nil, Except.map]

end FA
